import Mathlib

/-!
Verification of the text post-processing pipeline of the meeting-notes
summarizer (`AIService` in the backend's AI service module).

Texts are modelled as `List Char` (JS strings are immutable character
sequences; all inputs here are ASCII-oriented).  Every definition is a
direct transliteration of the corresponding JavaScript: regular-expression
rewrites go through a small backtracking regex engine whose patterns are
transcribed literally from the source, and arithmetic on JS numbers that
is integer-valued in the source is modelled with `Int`/`Nat` (ratio
comparisons are modelled with exact cross-multiplied rationals).
-/

namespace NotesSummarizer

abbrev Str := List Char

/-- Character list of a string literal. -/
def str (s : String) : Str := s.data

/-- JS `\s` / `String.prototype.trim` whitespace set (ECMA-262 WhiteSpace
and LineTerminator code points). -/
def isWs (c : Char) : Bool :=
  c.toNat = 9 ∨ c.toNat = 10 ∨ c.toNat = 11 ∨ c.toNat = 12 ∨ c.toNat = 13 ∨
  c.toNat = 32 ∨ c.toNat = 160 ∨ c.toNat = 0x1680 ∨
  (0x2000 ≤ c.toNat ∧ c.toNat ≤ 0x200a) ∨
  c.toNat = 0x2028 ∨ c.toNat = 0x2029 ∨ c.toNat = 0x202f ∨
  c.toNat = 0x205f ∨ c.toNat = 0x3000 ∨ c.toNat = 0xfeff

/-- JS `text.trim()`. -/
def jsTrim (l : Str) : Str :=
  ((l.dropWhile isWs).reverse.dropWhile isWs).reverse

/-- Word counter used throughout the source:
`text.trim().split(/\s+/).filter(word => word.length > 0).length`,
i.e. the number of maximal non-whitespace runs.  `b` records whether the
scan is currently inside a word. -/
def wcAux : Str → Bool → Nat
  | [], _ => 0
  | c :: cs, inw =>
    if isWs c then wcAux cs false
    else (if inw then 0 else 1) + wcAux cs true

def wordCount (l : Str) : Nat := wcAux l false

/-- JS `line.trim().split(/\s+/).length` (no empty-word filter): for the
empty string, `''.split(/\s+/)` is `['']` of length 1. -/
def lineWordCount (l : Str) : Nat :=
  let t := jsTrim l
  if t = [] then 1 else wordCount t

/-- JS `text.split('\n')`. -/
def splitNl : Str → List Str
  | [] => [[]]
  | c :: cs =>
    if c = '\n' then [] :: splitNl cs
    else
      match splitNl cs with
      | [] => [[c]]
      | p :: ps => (c :: p) :: ps

/-- JS `array.join('\n')`. -/
def joinNl : List Str → Str
  | [] => []
  | [l] => l
  | l :: ls => l ++ '\n' :: joinNl ls

/-- `haystack.includes(needle)` / an unanchored literal regex test. -/
def containsSub (hay needle : Str) : Bool :=
  match hay with
  | [] => needle = []
  | _ :: tl => needle.isPrefixOf hay || containsSub tl needle

/-- ASCII lower-casing, as done by a case-insensitive (`/i`) regex test. -/
def lowerStr (l : Str) : Str := l.map Char.toLower

/-- Case-insensitive test for an alternation of literal words, e.g.
`/action|decision|next/i.test(line)`. -/
def containsAnyCI (l : Str) (words : List Str) : Bool :=
  words.any (fun w => containsSub (lowerStr l) w)

/-! ### A small backtracking regex engine

JS `String.prototype.replace(regexp, …)` with the `g` flag is modelled by a
left-to-right scan that at each position attempts a backtracking match with
JS disambiguation (left alternative first, greedy/lazy quantifiers).  `^`/`$`
behave as with the `m` flag (every source pattern using them carries `m`).
Fuel bounds only the recursion depth: it is chosen large enough for every
input these theorems evaluate the engine on. -/

/-- An inclusive character range of a character class. -/
structure CRange where
  lo : Char
  hi : Char

inductive RE where
  | eps
  | lit (c : Char)
  | anyChar                                 -- `.` (anything but newline)
  | cls (neg : Bool) (rs : List CRange)     -- `[...]` / `[^...]`
  | seq (a b : RE)
  | alt (a b : RE)
  | rep (lo : Nat) (hi : Option Nat) (lazy : Bool) (r : RE)  -- `{lo,hi}` quantifier
  | grp (n : Nat) (r : RE)                  -- capturing group `$n`
  | bol                                     -- `^` (multiline)
  | eol                                     -- `$` (multiline)
  | wb                                      -- `\b`
  | nla (r : RE)                            -- `(?!...)`

/-- `\w` membership. -/
def isWordChar (c : Char) : Bool :=
  ('a'.toNat ≤ c.toNat ∧ c.toNat ≤ 'z'.toNat) ∨
  ('A'.toNat ≤ c.toNat ∧ c.toNat ≤ 'Z'.toNat) ∨
  ('0'.toNat ≤ c.toNat ∧ c.toNat ≤ '9'.toNat) ∨ c = '_'

def inRanges (rs : List CRange) (c : Char) : Bool :=
  rs.any (fun r => r.lo.toNat ≤ c.toNat ∧ c.toNat ≤ r.hi.toNat)

/-- Literal comparison, honouring the `/i` flag. -/
def charEq (ci : Bool) (pat c : Char) : Bool :=
  if ci then pat.toLower = c.toLower else pat = c

def clsMatch (ci : Bool) (neg : Bool) (rs : List CRange) (c : Char) : Bool :=
  let inside := inRanges rs c || (ci && (inRanges rs c.toLower || inRanges rs c.toUpper))
  if neg then !inside else inside

/-- Captures: group index ↦ captured text (most recent first). -/
abbrev Caps := List (Nat × List Char)

def lookupCap (caps : Caps) (n : Nat) : List Char :=
  match caps.find? (fun p => p.1 = n) with
  | some p => p.2
  | none => []    -- a non-participating group substitutes as ''

/-- CPS backtracking matcher.  `left` is the reversed consumed prefix (for
`^`/`\b`), `right` the rest of the input; the continuation receives the new
zipper and captures.  A successful overall attempt yields the remaining
suffix and the captures. -/
def matRE (ci : Bool) :
    Nat → RE → List Char → List Char → Caps →
    (List Char → List Char → Caps → Option (List Char × Caps)) →
    Option (List Char × Caps)
  | 0, _, _, _, _, _ => none
  | fuel+1, re, left, right, caps, k =>
    match re with
    | .eps => k left right caps
    | .lit c =>
      match right with
      | [] => none
      | d :: rest => if charEq ci c d then k (d :: left) rest caps else none
    | .anyChar =>
      match right with
      | [] => none
      | d :: rest => if d = '\n' then none else k (d :: left) rest caps
    | .cls neg rs =>
      match right with
      | [] => none
      | d :: rest => if clsMatch ci neg rs d then k (d :: left) rest caps else none
    | .seq a b =>
      matRE ci fuel a left right caps (fun l r cp => matRE ci fuel b l r cp k)
    | .alt a b =>
      match matRE ci fuel a left right caps k with
      | some res => some res
      | none => matRE ci fuel b left right caps k
    | .grp n r =>
      matRE ci fuel r left right caps (fun l r' cp =>
        k l r' ((n, right.take (right.length - r'.length)) :: cp))
    | .bol =>
      if left = [] ∨ left.head? = some '\n' then k left right caps else none
    | .eol =>
      if right = [] ∨ right.head? = some '\n' then k left right caps else none
    | .wb =>
      let before := match left with | [] => false | c :: _ => isWordChar c
      let after := match right with | [] => false | c :: _ => isWordChar c
      if before ≠ after then k left right caps else none
    | .nla r =>
      match matRE ci fuel r left right caps (fun _ r' cp => some (r', cp)) with
      | some _ => none
      | none => k left right caps
    | .rep lo hi lz r =>
      if lo > 0 then
        matRE ci fuel r left right caps (fun l r' cp =>
          matRE ci fuel (.rep (lo-1) (hi.map (· - 1)) lz r) l r' cp k)
      else
        match hi with
        | some 0 => k left right caps
        | _ =>
          let more := matRE ci fuel r left right caps (fun l r' cp =>
            if r'.length = right.length then none   -- empty iteration ends the loop
            else matRE ci fuel (.rep 0 (hi.map (· - 1)) lz r) l r' cp k)
          if lz then
            match k left right caps with
            | some res => some res
            | none => more
          else
            match more with
            | some res => some res
            | none => k left right caps

def reSize : RE → Nat
  | .eps | .lit _ | .anyChar | .cls _ _ | .bol | .eol | .wb => 1
  | .seq a b | .alt a b => reSize a + reSize b + 1
  | .rep _ _ _ r | .grp _ r | .nla r => reSize r + 1

/-- Fuel ample for matching `re` against a string of length `n`. -/
def fuelFor (re : RE) (n : Nat) : Nat := (reSize re + 4) * (n + 8) + 64

/-- Try a match starting exactly at the current position. -/
def matchHere (ci : Bool) (re : RE) (left right : List Char) :
    Option (List Char × Caps) :=
  matRE ci (fuelFor re right.length) re left right [] (fun _ r cp => some (r, cp))

/-- `s.replace(re, f)` with the `g` flag; `f` builds the replacement from
the captures and the matched text. -/
def replScan (ci : Bool) (re : RE) (f : Caps → List Char → List Char) :
    Nat → List Char → List Char → List Char
  | 0, _, right => right
  | fuel+1, left, right =>
    match matchHere ci re left right with
    | some (rest, caps) =>
      let m := right.take (right.length - rest.length)
      let rep := f caps m
      if m = [] then
        match right with
        | [] => rep
        | c :: cs => rep ++ c :: replScan ci re f fuel (c :: left) cs
      else rep ++ replScan ci re f fuel (m.reverse ++ left) rest
    | none =>
      match right with
      | [] => []
      | c :: cs => c :: replScan ci re f fuel (c :: left) cs

def jsReplace (re : RE) (ci : Bool) (f : Caps → List Char → List Char)
    (s : List Char) : List Char :=
  replScan ci re f (s.length + 2) [] s

/-- First match of `re` in `s` (JS `s.match(re)` without `g`): captures of
the leftmost match. -/
def reFindAux (ci : Bool) (re : RE) : Nat → List Char → List Char → Option Caps
  | 0, _, _ => none
  | fuel+1, left, right =>
    match matchHere ci re left right with
    | some (_, caps) => some caps
    | none =>
      match right with
      | [] => none
      | c :: cs => reFindAux ci re fuel (c :: left) cs

def reFind (ci : Bool) (re : RE) (s : List Char) : Option Caps :=
  reFindAux ci re (s.length + 2) [] s

/-- `re.test(s)`. -/
def reTest (ci : Bool) (re : RE) (s : List Char) : Bool :=
  (reFind ci re s).isSome

/-! ### Pattern-building shorthands (transliteration helpers) -/

def rcat (l : List RE) : RE := l.foldr .seq .eps

def ralt : List RE → RE
  | [] => .eps
  | [r] => r
  | r :: rest => .alt r (ralt rest)

/-- A literal string pattern. -/
def rlits (s : String) : RE := rcat (s.data.map .lit)

def rstar (r : RE) : RE := .rep 0 none false r
def rplus (r : RE) : RE := .rep 1 none false r
def ropt (r : RE) : RE := .rep 0 (some 1) false r
def rplusLazy (r : RE) : RE := .rep 1 none true r
def rstarLazy (r : RE) : RE := .rep 0 none true r
def rrep (m n : Nat) (r : RE) : RE := .rep m (some n) false r
def roptG (r : RE) : RE := .rep 0 (some 1) false r

/-- Positive character set of single characters. -/
def pset (l : List Char) : RE := .cls false (l.map (fun c => ⟨c, c⟩))
/-- Negated character set of single characters. -/
def nset (l : List Char) : RE := .cls true (l.map (fun c => ⟨c, c⟩))

/-- Ranges of the JS `\s` class. -/
def wsRanges : List CRange :=
  [⟨'\x09', '\x0d'⟩, ⟨' ', ' '⟩, ⟨'\xa0', '\xa0'⟩,
   ⟨Char.ofNat 0x1680, Char.ofNat 0x1680⟩,
   ⟨Char.ofNat 0x2000, Char.ofNat 0x200a⟩,
   ⟨Char.ofNat 0x2028, Char.ofNat 0x2029⟩,
   ⟨Char.ofNat 0x202f, Char.ofNat 0x202f⟩,
   ⟨Char.ofNat 0x205f, Char.ofNat 0x205f⟩,
   ⟨Char.ofNat 0x3000, Char.ofNat 0x3000⟩,
   ⟨Char.ofNat 0xfeff, Char.ofNat 0xfeff⟩]

def clsS : RE := .cls false wsRanges                             -- \s
def clsD : RE := .cls false [⟨'0', '9'⟩]                         -- \d
def clsW : RE := .cls false [⟨'a', 'z'⟩, ⟨'A', 'Z'⟩, ⟨'0', '9'⟩, ⟨'_', '_'⟩]  -- \w
def clsAlpha : RE := .cls false [⟨'a', 'z'⟩, ⟨'A', 'Z'⟩]         -- [a-zA-Z]
def clsLower : RE := .cls false [⟨'a', 'z'⟩]                     -- [a-z]
def clsUpper : RE := .cls false [⟨'A', 'Z'⟩]                     -- [A-Z]
def clsLowerDigit : RE := .cls false [⟨'a', 'z'⟩, ⟨'0', '9'⟩]    -- [a-z0-9]
def clsNotNl : RE := .cls true [⟨'\n', '\n'⟩]                    -- [^\n]
/-- `[^X…\n\s]`-style class: negation of the given characters plus `\s`. -/
def nsetWs (l : List Char) : RE :=
  .cls true (l.map (fun c => ⟨c, c⟩) ++ wsRanges)

/-- Replacement templates: literal text, `$n`, `$&`. -/
inductive RTok where
  | s (t : String)
  | g (n : Nat)
  | m

def substT (toks : List RTok) (caps : Caps) (matched : List Char) : List Char :=
  toks.foldr
    (fun tok acc =>
      (match tok with
       | .s t => t.data
       | .g n => lookupCap caps n
       | .m => matched) ++ acc)
    []

/-! ### `AIService.cleanFormatting`

The ordered rewrite chain of `cleanFormatting(text)`; each entry is one
`cleaned.replace(pattern, replacement)` of the source, in source order,
with the original pattern quoted alongside. -/

def nlS : RE := .seq (.lit '\n') (rstar clsS)                       -- `\n\s*`

def cleanRules01 : List (RE × List RTok) :=
  [ -- /^\s*[\*\-\+]\s+/gm → '- '
    (rcat [.bol, rstar clsS, pset ['*', '-', '+'], rplus clsS], [.s "- "]),
    -- /^(#{1,6})\s*(.+)$/gm → '$1 $2\n'
    (rcat [.bol, .grp 1 (rrep 1 6 (.lit '#')), rstar clsS,
           .grp 2 (rplus .anyChar), .eol],
     [.g 1, .s " ", .g 2, .s "\n"]),
    -- /\*\*([^*]+)\*\*/g → '**$1**'
    (rcat [rlits "**", .grp 1 (rplus (nset ['*'])), rlits "**"],
     [.s "**", .g 1, .s "**"]),
    -- /\*([^*\n]+)\*/g → '*$1*'
    (rcat [.lit '*', .grp 1 (rplus (nset ['*', '\n'])), .lit '*'],
     [.s "*", .g 1, .s "*"]),
    -- /[ \t]+/g → ' '
    (rplus (pset [' ', '\t']), [.s " "]),
    -- /\n\s*\n\s*\n+/g → '\n\n'
    (rcat [.lit '\n', rstar clsS, .lit '\n', rstar clsS, rplus (.lit '\n')],
     [.s "\n\n"]) ]

def cleanRules02 : List (RE × List RTok) :=
  [ -- /([^\n])\n\s*([a-z0-9]{1,4})\b/g → '$1$2'   (applied five times)
    (rcat [.grp 1 (nset ['\n']), nlS, .grp 2 (rrep 1 4 clsLowerDigit), .wb],
     [.g 1, .g 2]),
    (rcat [.grp 1 (nset ['\n']), nlS, .grp 2 (rrep 1 4 clsLowerDigit), .wb],
     [.g 1, .g 2]),
    (rcat [.grp 1 (nset ['\n']), nlS, .grp 2 (rrep 1 4 clsLowerDigit), .wb],
     [.g 1, .g 2]),
    (rcat [.grp 1 (nset ['\n']), nlS, .grp 2 (rrep 1 4 clsLowerDigit), .wb],
     [.g 1, .g 2]),
    (rcat [.grp 1 (nset ['\n']), nlS, .grp 2 (rrep 1 4 clsLowerDigit), .wb],
     [.g 1, .g 2]),
    -- /([^)\n\s])\n\s*\)/g → '$1)'   (applied three times)
    (rcat [.grp 1 (nsetWs [')', '\n']), nlS, .lit ')'], [.g 1, .s ")"]),
    (rcat [.grp 1 (nsetWs [')', '\n']), nlS, .lit ')'], [.g 1, .s ")"]),
    (rcat [.grp 1 (nsetWs [')', '\n']), nlS, .lit ')'], [.g 1, .s ")"]) ]

def cleanRules03 : List (RE × List RTok) :=
  [ -- /(\d{4}-\d{2}-\d{2})\n\s*\)/g → '$1)'
    (rcat [.grp 1 (rcat [rrep 4 4 clsD, .lit '-', rrep 2 2 clsD, .lit '-',
                         rrep 2 2 clsD]), nlS, .lit ')'],
     [.g 1, .s ")"]),
    -- /(This Week|Next Week|This Month|Next Month)\n\s*\)/g → '$1)'
    (rcat [.grp 1 (ralt [rlits "This Week", rlits "Next Week",
                         rlits "This Month", rlits "Next Month"]),
           nlS, .lit ')'],
     [.g 1, .s ")"]),
    -- /(Next \d+-?\d* Weeks?|Beyond \d+ Months?)\n\s*\)/g → '$1)'
    (rcat [.grp 1 (ralt
             [rcat [rlits "Next ", rplus clsD, ropt (.lit '-'), rstar clsD,
                    rlits " Week", ropt (.lit 's')],
              rcat [rlits "Beyond ", rplus clsD, rlits " Month",
                    ropt (.lit 's')]]),
           nlS, .lit ')'],
     [.g 1, .s ")"]),
    -- /\b(short|long)\s*\(\s*term\b/g → '$1-term'
    (rcat [.wb, .grp 1 (ralt [rlits "short", rlits "long"]), rstar clsS,
           .lit '(', rstar clsS, rlits "term", .wb],
     [.g 1, .s "-term"]),
    -- /(\d+)\s+short\s*\(\s*term/g → '$1 short-term'
    (rcat [.grp 1 (rplus clsD), rplus clsS, rlits "short", rstar clsS,
           .lit '(', rstar clsS, rlits "term"],
     [.g 1, .s " short-term"]),
    -- /([A-Za-z]+)\*:/g → '$1:'
    (rcat [.grp 1 (rplus clsAlpha), rlits "*:"], [.g 1, .s ":"]) ]

def cleanRules04 : List (RE × List RTok) :=
  [ -- /(Server Outage \(2024-08-15)\n\s*\)/g → '$1)'
    (rcat [.grp 1 (rlits "Server Outage (2024-08-15"), nlS, .lit ')'],
     [.g 1, .s ")"]),
    -- /(Immediate Actions \(This Week)\n\s*\)/g → '$1)'
    (rcat [.grp 1 (rlits "Immediate Actions (This Week"), nlS, .lit ')'],
     [.g 1, .s ")"]),
    -- /(Short-term Actions \(Next 2-4 Weeks)\n\s*\)/g → '$1)'
    (rcat [.grp 1 (rlits "Short-term Actions (Next 2-4 Weeks"), nlS, .lit ')'],
     [.g 1, .s ")"]),
    -- /(Long-term Actions \(Beyond 1 Month)\n\s*\)/g → '$1)'
    (rcat [.grp 1 (rlits "Long-term Actions (Beyond 1 Month"), nlS, .lit ')'],
     [.g 1, .s ")"]),
    -- /(\d+)\s+Short\s+term/g → '$1 Short-term'
    (rcat [.grp 1 (rplus clsD), rplus clsS, rlits "Short", rplus clsS,
           rlits "term"],
     [.g 1, .s " Short-term"]),
    -- /([^)\n]+)\n\s*(\)+)/g → '$1$2'
    (rcat [.grp 1 (rplus (nset [')', '\n'])), nlS, .grp 2 (rplus (.lit ')'))],
     [.g 1, .g 2]),
    -- /([^(\n]+)\n\s*\(/g → '$1 ('
    (rcat [.grp 1 (rplus (nset ['(', '\n'])), nlS, .lit '('],
     [.g 1, .s " ("]) ]

def cleanRules05 : List (RE × List RTok) :=
  [ -- /\(\s*([^)]+)\n\s*\)/g → '($1)'
    (rcat [.lit '(', rstar clsS, .grp 1 (rplus (nset [')'])), nlS, .lit ')'],
     [.s "(", .g 1, .s ")"]),
    -- /\(\s*([^)]*)\n\s*([^)]*)\s*\)/g → '($1 $2)'
    (rcat [.lit '(', rstar clsS, .grp 1 (rstar (nset [')'])), nlS,
           .grp 2 (rstar (nset [')'])), rstar clsS, .lit ')'],
     [.s "(", .g 1, .s " ", .g 2, .s ")"]),
    -- /\)\n\s*\)/g → '))'
    (rcat [.lit ')', nlS, .lit ')'], [.s "))"]),
    -- /\)\n\s*\)\n\s*\)/g → ')))'
    (rcat [.lit ')', nlS, .lit ')', nlS, .lit ')'], [.s ")))"]),
    -- /([^\n])\n\s*\)/g → '$1)'
    (rcat [.grp 1 (nset ['\n']), nlS, .lit ')'], [.g 1, .s ")"]),
    -- /([^.\n]+)\n\s*\./g → '$1.'
    (rcat [.grp 1 (rplus (nset ['.', '\n'])), nlS, .lit '.'], [.g 1, .s "."]),
    -- /([^,\n]+)\n\s*,/g → '$1,'
    (rcat [.grp 1 (rplus (nset [',', '\n'])), nlS, .lit ','], [.g 1, .s ","]),
    -- /([^;\n]+)\n\s*;/g → '$1;'
    (rcat [.grp 1 (rplus (nset [';', '\n'])), nlS, .lit ';'], [.g 1, .s ";"]),
    -- /([^:\n]+)\n\s*:/g → '$1:'
    (rcat [.grp 1 (rplus (nset [':', '\n'])), nlS, .lit ':'],
     [.g 1, .s ":"]) ]

def cleanRules06 : List (RE × List RTok) :=
  [ -- /(Immediate Actions|Short-term Actions|Long-term Actions|Pending Decisions|Dependencies|Blockers)\s*\(\s*([^)]*)\n\s*\)/g → '$1 ($2)'
    (rcat [.grp 1 (ralt [rlits "Immediate Actions", rlits "Short-term Actions",
                         rlits "Long-term Actions", rlits "Pending Decisions",
                         rlits "Dependencies", rlits "Blockers"]),
           rstar clsS, .lit '(', rstar clsS, .grp 2 (rstar (nset [')'])),
           nlS, .lit ')'],
     [.g 1, .s " (", .g 2, .s ")"]),
    -- /([a-zA-Z])\n\s*\./g → '$1.'   (twice in the source)
    (rcat [.grp 1 clsAlpha, nlS, .lit '.'], [.g 1, .s "."]),
    (rcat [.grp 1 clsAlpha, nlS, .lit '.'], [.g 1, .s "."]),
    -- /\*:\s*([^*]*)\s*\(\s*term/g → ': $1-term'
    (rcat [rlits "*:", rstar clsS, .grp 1 (rstar (nset ['*'])), rstar clsS,
           .lit '(', rstar clsS, rlits "term"],
     [.s ": ", .g 1, .s "-term"]),
    -- /\*\s*\)/g → ')'
    (rcat [.lit '*', rstar clsS, .lit ')'], [.s ")"]) ]

def cleanRules07 : List (RE × List RTok) :=
  [ -- /Owner:\s*([^:]+):\s*([^(]+)\s*\(\s*(\d{4})\s*\(\s*(\d{2}-\d{2})\s*\)\s*\)/g
    --   → 'Owner: $1: $2 ($3-$4)'
    (rcat [rlits "Owner:", rstar clsS, .grp 1 (rplus (nset [':'])), .lit ':',
           rstar clsS, .grp 2 (rplus (nset ['('])), rstar clsS, .lit '(',
           rstar clsS, .grp 3 (rrep 4 4 clsD), rstar clsS, .lit '(',
           rstar clsS, .grp 4 (rcat [rrep 2 2 clsD, .lit '-', rrep 2 2 clsD]),
           rstar clsS, .lit ')', rstar clsS, .lit ')'],
     [.s "Owner: ", .g 1, .s ": ", .g 2, .s " (", .g 3, .s "-", .g 4,
      .s ")"]),
    -- /(\d{4})\s*\(\s*(\d{2}-\d{2})\s*\)/g → '$1-$2'
    (rcat [.grp 1 (rrep 4 4 clsD), rstar clsS, .lit '(', rstar clsS,
           .grp 2 (rcat [rrep 2 2 clsD, .lit '-', rrep 2 2 clsD]),
           rstar clsS, .lit ')'],
     [.g 1, .s "-", .g 2]),
    -- /\((\d{4})\s*\(\s*(\d{2}-\d{2})\s*\)\s*\)/g → '($1-$2)'
    (rcat [.lit '(', .grp 1 (rrep 4 4 clsD), rstar clsS, .lit '(', rstar clsS,
           .grp 2 (rcat [rrep 2 2 clsD, .lit '-', rrep 2 2 clsD]),
           rstar clsS, .lit ')', rstar clsS, .lit ')'],
     [.s "(", .g 1, .s "-", .g 2, .s ")"]),
    -- /\(\s*(\d{4})\s*\(\s*(\d{2}-\d{2})\s*\)/g → '($1-$2'
    (rcat [.lit '(', rstar clsS, .grp 1 (rrep 4 4 clsD), rstar clsS, .lit '(',
           rstar clsS, .grp 2 (rcat [rrep 2 2 clsD, .lit '-', rrep 2 2 clsD]),
           rstar clsS, .lit ')'],
     [.s "(", .g 1, .s "-", .g 2]),
    -- /(\d{4})\s*\(\s*(\d{2}-\d{2})\s*\)\s*\)/g → '$1-$2)'
    (rcat [.grp 1 (rrep 4 4 clsD), rstar clsS, .lit '(', rstar clsS,
           .grp 2 (rcat [rrep 2 2 clsD, .lit '-', rrep 2 2 clsD]),
           rstar clsS, .lit ')', rstar clsS, .lit ')'],
     [.g 1, .s "-", .g 2, .s ")"]) ]

def cleanRules08 : List (RE × List RTok) :=
  [ -- /^(Pending Decisions)-([A-Z])/gm → '$1 - $2'
    (rcat [.bol, .grp 1 (rlits "Pending Decisions"), .lit '-',
           .grp 2 clsUpper],
     [.g 1, .s " - ", .g 2]),
    -- /^(Dependencies)-([A-Z])/gm → '$1 - $2'
    (rcat [.bol, .grp 1 (rlits "Dependencies"), .lit '-', .grp 2 clsUpper],
     [.g 1, .s " - ", .g 2]),
    -- /^(Blockers)-([A-Z])/gm → '$1 - $2'
    (rcat [.bol, .grp 1 (rlits "Blockers"), .lit '-', .grp 2 clsUpper],
     [.g 1, .s " - ", .g 2]),
    -- /^(Pending Decisions)-([a-z])/gm → '$1 - $2'
    (rcat [.bol, .grp 1 (rlits "Pending Decisions"), .lit '-',
           .grp 2 clsLower],
     [.g 1, .s " - ", .g 2]),
    -- /^(Dependencies)-([a-z])/gm → '$1 - $2'
    (rcat [.bol, .grp 1 (rlits "Dependencies"), .lit '-', .grp 2 clsLower],
     [.g 1, .s " - ", .g 2]),
    -- /^(Blockers)-([a-z])/gm → '$1 - $2'
    (rcat [.bol, .grp 1 (rlits "Blockers"), .lit '-', .grp 2 clsLower],
     [.g 1, .s " - ", .g 2]) ]

def cleanRules09 : List (RE × List RTok) :=
  [ -- /\b([A-Za-z]+)\n\s*([a-z]{1,8})\b/g → '$1$2'
    (rcat [.wb, .grp 1 (rplus clsAlpha), nlS, .grp 2 (rrep 1 8 clsLower),
           .wb],
     [.g 1, .g 2]),
    -- /\b([A-Za-z]+)\n\s*(s|es|ed|ing|ion|ions|ies|tion|tions|term|terms)\b/g → '$1$2'
    (rcat [.wb, .grp 1 (rplus clsAlpha), nlS,
           .grp 2 (ralt [rlits "s", rlits "es", rlits "ed", rlits "ing",
                         rlits "ion", rlits "ions", rlits "ies", rlits "tion",
                         rlits "tions", rlits "term", rlits "terms"]), .wb],
     [.g 1, .g 2]),
    -- /([a-zA-Z])\n\s*-\s*([a-zA-Z])/g → '$1-$2'
    (rcat [.grp 1 clsAlpha, nlS, .lit '-', rstar clsS, .grp 2 clsAlpha],
     [.g 1, .s "-", .g 2]),
    -- /\b(short)\s*\(\s*(term)\b/g → '$1-$2'
    (rcat [.wb, .grp 1 (rlits "short"), rstar clsS, .lit '(', rstar clsS,
           .grp 2 (rlits "term"), .wb],
     [.g 1, .s "-", .g 2]),
    -- /\b(long)\s*\(\s*(term)\b/g → '$1-$2'
    (rcat [.wb, .grp 1 (rlits "long"), rstar clsS, .lit '(', rstar clsS,
           .grp 2 (rlits "term"), .wb],
     [.g 1, .s "-", .g 2]) ]

def cleanRules10 : List (RE × List RTok) :=
  [ -- /^(Pending\s+Decision)\n\s*s\b/gm → '$1s'
    (rcat [.bol, .grp 1 (rcat [rlits "Pending", rplus clsS,
                               rlits "Decision"]),
           nlS, .lit 's', .wb],
     [.g 1, .s "s"]),
    -- /^(Dependencie)\n\s*s\b/gm → '$1s'
    (rcat [.bol, .grp 1 (rlits "Dependencie"), nlS, .lit 's', .wb],
     [.g 1, .s "s"]),
    -- /^(Blocker)\n\s*s\b/gm → '$1s'
    (rcat [.bol, .grp 1 (rlits "Blocker"), nlS, .lit 's', .wb],
     [.g 1, .s "s"]),
    -- /^(Action\s+Item)\n\s*s\b/gm → '$1s'
    (rcat [.bol, .grp 1 (rcat [rlits "Action", rplus clsS, rlits "Item"]),
           nlS, .lit 's', .wb],
     [.g 1, .s "s"]),
    -- /^(Next\s+Step)\n\s*s\b/gm → '$1s'
    (rcat [.bol, .grp 1 (rcat [rlits "Next", rplus clsS, rlits "Step"]),
           nlS, .lit 's', .wb],
     [.g 1, .s "s"]),
    -- /^(Risk)\n\s*s\b/gm → '$1s'
    (rcat [.bol, .grp 1 (rlits "Risk"), nlS, .lit 's', .wb], [.g 1, .s "s"]),
    -- /^(Concern)\n\s*s\b/gm → '$1s'
    (rcat [.bol, .grp 1 (rlits "Concern"), nlS, .lit 's', .wb],
     [.g 1, .s "s"]) ]

def cleanRules11 : List (RE × List RTok) :=
  [ -- /^(Immediate\s+Actions)\s*\(\s*([^)]*)\n\s*\)/gm → '$1 ($2)'
    (rcat [.bol, .grp 1 (rcat [rlits "Immediate", rplus clsS,
                               rlits "Actions"]),
           rstar clsS, .lit '(', rstar clsS, .grp 2 (rstar (nset [')'])),
           nlS, .lit ')'],
     [.g 1, .s " (", .g 2, .s ")"]),
    -- /^(Short-term\s+Actions)\s*\(\s*([^)]*)\n\s*\)/gm → '$1 ($2)'
    (rcat [.bol, .grp 1 (rcat [rlits "Short-term", rplus clsS,
                               rlits "Actions"]),
           rstar clsS, .lit '(', rstar clsS, .grp 2 (rstar (nset [')'])),
           nlS, .lit ')'],
     [.g 1, .s " (", .g 2, .s ")"]),
    -- /^(Long-term\s+Actions)\s*\(\s*([^)]*)\n\s*\)/gm → '$1 ($2)'
    (rcat [.bol, .grp 1 (rcat [rlits "Long-term", rplus clsS,
                               rlits "Actions"]),
           rstar clsS, .lit '(', rstar clsS, .grp 2 (rstar (nset [')'])),
           nlS, .lit ')'],
     [.g 1, .s " (", .g 2, .s ")"]),
    -- /^(Risks\s+and\s+Concern)\n\s*s\b/gm → '$1s'
    (rcat [.bol, .grp 1 (rcat [rlits "Risks", rplus clsS, rlits "and",
                               rplus clsS, rlits "Concern"]),
           nlS, .lit 's', .wb],
     [.g 1, .s "s"]) ]

def cleanRules12 : List (RE × List RTok) :=
  [ -- /^Pending Decisions-([A-Z])/gm → 'Pending Decisions - $1'
    (rcat [.bol, rlits "Pending Decisions-", .grp 1 clsUpper],
     [.s "Pending Decisions - ", .g 1]),
    -- /^Pending Decisions-([a-z])/gm → 'Pending Decisions - $1'
    (rcat [.bol, rlits "Pending Decisions-", .grp 1 clsLower],
     [.s "Pending Decisions - ", .g 1]),
    -- /^Dependencies-([A-Z])/gm → 'Dependencies - $1'
    (rcat [.bol, rlits "Dependencies-", .grp 1 clsUpper],
     [.s "Dependencies - ", .g 1]),
    -- /^Dependencies-([a-z])/gm → 'Dependencies - $1'
    (rcat [.bol, rlits "Dependencies-", .grp 1 clsLower],
     [.s "Dependencies - ", .g 1]),
    -- /^Blockers-([A-Z])/gm → 'Blockers - $1'
    (rcat [.bol, rlits "Blockers-", .grp 1 clsUpper],
     [.s "Blockers - ", .g 1]),
    -- /^Blockers-([a-z])/gm → 'Blockers - $1'
    (rcat [.bol, rlits "Blockers-", .grp 1 clsLower],
     [.s "Blockers - ", .g 1]) ]

def cleanRules13 : List (RE × List RTok) :=
  [ -- /([a-zA-Z])\n\s*\.\s*$/gm → '$1.'
    (rcat [.grp 1 clsAlpha, nlS, .lit '.', rstar clsS, .eol],
     [.g 1, .s "."]),
    -- /([a-zA-Z])\n\s*\./gm → '$1.'
    (rcat [.grp 1 clsAlpha, nlS, .lit '.'], [.g 1, .s "."]),
    -- /([a-z])-\n\s*([a-z])/g → '$1-$2'
    (rcat [.grp 1 clsLower, .lit '-', nlS, .grp 2 clsLower],
     [.g 1, .s "-", .g 2]),
    -- /^(#{1,6}[^\n]+)(?!\n\n)/gm → '$1\n'
    (rcat [.bol, .grp 1 (rcat [rrep 1 6 (.lit '#'), rplus clsNotNl]),
           .nla (rlits "\n\n")],
     [.g 1, .s "\n"]),
    -- /^-\s+/gm → '- '
    (rcat [.bol, .lit '-', rplus clsS], [.s "- "]),
    -- /^-\s*([^:]+):\s*/gm → '- **$1**: '
    (rcat [.bol, .lit '-', rstar clsS, .grp 1 (rplus (nset [':'])), .lit ':',
           rstar clsS],
     [.s "- **", .g 1, .s "**: "]),
    -- /\*\*\s*\*\*/g → ''
    (rcat [rlits "**", rstar clsS, rlits "**"], []),
    -- /\*\s*\*/g → ''
    (rcat [.lit '*', rstar clsS, .lit '*'], []) ]

def cleanRules : List (RE × List RTok) :=
  cleanRules01 ++ cleanRules02 ++ cleanRules03 ++ cleanRules04 ++
  cleanRules05 ++ cleanRules06 ++ cleanRules07 ++ cleanRules08 ++
  cleanRules09 ++ cleanRules10 ++ cleanRules11 ++ cleanRules12 ++
  cleanRules13

/-- `AIService.cleanFormatting(text)`: the ordered rewrite chain followed by
the final `cleaned.trim()`; the `catch` branch (return the input unchanged)
is unreachable in this total model. -/
def cleanFormatting (text : Str) : Str :=
  jsTrim (cleanRules.foldl
    (fun s rule => jsReplace rule.1 false (fun caps m => substT rule.2 caps m) s)
    text)

/-! ### Keyword tests

The `/i` regex tests of the pipeline are alternations of literals (with an
occasional optional character); each is transliterated as a set of
case-insensitive substring tests, plus dedicated scanners for the few
non-literal pieces (`follow.?up`, `\$[\d,]+`, `\d+%`, `\d{1,2}\/\d{1,2}`,
`\b[A-Z][a-z]+\s*:`, `by\s+\w+`, `due\s+\w+`, `\w+day`). -/

def isDigit (c : Char) : Bool := '0'.toNat ≤ c.toNat ∧ c.toNat ≤ '9'.toNat
def isLowerAZ (c : Char) : Bool := 'a'.toNat ≤ c.toNat ∧ c.toNat ≤ 'z'.toNat
def isUpperAZ (c : Char) : Bool := 'A'.toNat ≤ c.toNat ∧ c.toNat ≤ 'Z'.toNat

/-- `follow.?up` at the head of an (already lowered) string: "follow", an
optional non-newline character, then "up". -/
def followUpAt (l : Str) : Bool :=
  (str "follow").isPrefixOf l &&
    (let rest := l.drop 6
     (str "up").isPrefixOf rest ||
       match rest with
       | [] => false
       | d :: rest2 => d ≠ '\n' && (str "up").isPrefixOf rest2)

def followUpScan : Str → Bool
  | [] => false
  | c :: cs => followUpAt (c :: cs) || followUpScan cs

/-- `/follow.?up/i.test(s)`. -/
def hasFollowUp (l : Str) : Bool := followUpScan (lowerStr l)

/-- `\$[\d,]+` test: a `$` immediately followed by a digit or comma. -/
def hasDollarAmount : Str → Bool
  | [] => false
  | c :: cs =>
    (c = '$' && (match cs with
                 | d :: _ => isDigit d || d = ','
                 | [] => false)) || hasDollarAmount cs

/-- `\d+%` test: a digit immediately followed by `%`. -/
def hasPercentNum : Str → Bool
  | [] => false
  | c :: cs => (isDigit c && cs.head? = some '%') || hasPercentNum cs

/-- `\d{1,2}\/\d{1,2}` test: a digit, `/`, digit. -/
def hasSlashDate : Str → Bool
  | [] => false
  | c :: cs =>
    (isDigit c && (match cs with
                   | '/' :: d :: _ => isDigit d
                   | _ => false)) || hasSlashDate cs

/-- `\s*:` — optional whitespace, then a colon. -/
def wsColon : Str → Bool
  | [] => false
  | c :: cs => if c = ':' then true else if isWs c then wsColon cs else false

/-- rest of `[a-z]+\s*:` after its first lowercase letter. -/
def lowerRunColon : Str → Bool
  | [] => false
  | c :: cs => if isLowerAZ c then lowerRunColon cs else wsColon (c :: cs)

def hasOwnershipAux : Bool → Str → Bool
  | _, [] => false
  | prevW, c :: cs =>
    (!prevW && isUpperAZ c &&
      (match cs with
       | d :: rest => isLowerAZ d && lowerRunColon rest
       | [] => false)) || hasOwnershipAux (isWordChar c) cs

/-- `/\b[A-Z][a-z]+\s*:/g.test(summary)` ("Name:" ownership pattern). -/
def hasOwnership (l : Str) : Bool := hasOwnershipAux false l

/-- `\s+\w` — at least one whitespace character, then a word character. -/
def wsThenWord : Str → Bool
  | [] => false
  | c :: cs =>
    isWs c && (let rest := cs.dropWhile isWs
               match rest with
               | d :: _ => isWordChar d
               | [] => false)

/-- `w\s+\w` at any position of an (already lowered) string, `w` a literal
(used for `by\s+\w+` and `due\s+\w+`). -/
def litThenWsWord (w : Str) : Str → Bool
  | [] => false
  | c :: cs =>
    (w.isPrefixOf (c :: cs) && wsThenWord ((c :: cs).drop w.length)) ||
      litThenWsWord w cs

/-- `\w+day` test on an (already lowered) string: a word character
immediately followed by "day". -/
def hasWordDay : Str → Bool
  | [] => false
  | c :: cs => (isWordChar c && (str "day").isPrefixOf cs) || hasWordDay cs

/-- `/(by\s+\w+|due\s+\w+|\d{1,2}\/\d{1,2}|\w+day)/i.test(summary)`. -/
def hasTimeRef (l : Str) : Bool :=
  let low := lowerStr l
  litThenWsWord (str "by") low || litThenWsWord (str "due") low ||
    hasSlashDate low || hasWordDay low

/-! ### `AIService.enhanceContentStructure` -/

-- /decision|decided|agreed|concluded/i  (lines 482 and 497)
def kwDecision (l : Str) : Bool :=
  containsAnyCI l [str "decision", str "decided", str "agreed",
                   str "concluded"]

-- /action|task|assign|deadline|due|follow.?up/i  (line 483)
def kwActionFull (l : Str) : Bool :=
  containsAnyCI l [str "action", str "task", str "assign", str "deadline",
                   str "due"] || hasFollowUp l

-- /action|task|assign|deadline|due/i  (line 504)
def kwAction (l : Str) : Bool :=
  containsAnyCI l [str "action", str "task", str "assign", str "deadline",
                   str "due"]

-- /next|upcoming|future|plan|schedule/i  (lines 484 and 511)
def kwNext (l : Str) : Bool :=
  containsAnyCI l [str "next", str "upcoming", str "future", str "plan",
                   str "schedule"]

/-- `sectionType` of the structuring loop (`null`/`'decisions'`/`'actions'`/
`'next'`). -/
inductive SectionType where
  | null
  | decisions
  | actions
  | next
deriving DecidableEq

def hdrKeyDecisions : Str := str "## Key Decisions"
def hdrActionItems : Str := str "## Action Items"
def hdrNextSteps : Str := str "## Next Steps"

/-- The `for (const line of lines)` loop of `enhanceContentStructure`
(lines 493–523): `acc` is `structuredContent`, `cur` is `currentSection`,
`st` is `sectionType`; the loop ends with `structuredContent.push(...currentSection)`. -/
def structureLoop : List Str → List Str → List Str → SectionType → List Str
  | [], acc, cur, _ => acc ++ cur
  | line :: rest, acc, cur, st =>
    let t := jsTrim line
    if kwDecision t ∧ st = SectionType.null then
      structureLoop rest (acc ++ cur ++ [hdrKeyDecisions]) [t] .decisions
    else if kwAction t ∧ st ≠ SectionType.actions then
      structureLoop rest (acc ++ cur ++ [hdrActionItems]) [t] .actions
    else if kwNext t ∧ st ≠ SectionType.next then
      structureLoop rest (acc ++ cur ++ [hdrNextSteps]) [t] .next
    else
      structureLoop rest acc (cur ++ [t]) st

/-- The header-insertion stage of `enhanceContentStructure` (lines 479–526):
activation gate, then the structuring loop over the non-blank lines. -/
def enhanceStructured (text : Str) : Str :=
  if 200 < text.length ∧ containsSub text (str "##") = false ∧
      containsSub text (str "#") = false then
    if kwDecision text ∨ kwActionFull text ∨ kwNext text then
      joinNl (structureLoop ((splitNl text).filter (fun l => jsTrim l ≠ []))
                [] [] .null)
    else text
  else text

-- /^-\s*([^:]+?):\s*(.+?)(?:\s*-\s*(.+?))?$/gm  (line 529)
def actionItemRE : RE :=
  rcat [.bol, .lit '-', rstar clsS, .grp 1 (rplusLazy (nset [':'])), .lit ':',
        rstar clsS, .grp 2 (rplusLazy .anyChar),
        ropt (rcat [rstar clsS, .lit '-', rstar clsS,
                    .grp 3 (rplusLazy .anyChar)]),
        .eol]

/-- The replacement callback of line 529: with a deadline group the line is
rebuilt as `- **owner**: task *(deadline)*`; otherwise (both remaining
branches of the source return the same string) as `- **owner**: task`. -/
def actionItemRepl (caps : Caps) (_m : Str) : Str :=
  match caps.find? (fun p => p.1 = 3) with
  | some p =>
    str "- **" ++ lookupCap caps 1 ++ str "**: " ++ lookupCap caps 2 ++
      str " *(" ++ p.2 ++ str ")*"
  | none =>
    str "- **" ++ lookupCap caps 1 ++ str "**: " ++ lookupCap caps 2

def monthsRE : RE :=
  ralt [rlits "January", rlits "February", rlits "March", rlits "April",
        rlits "May", rlits "June", rlits "July", rlits "August",
        rlits "September", rlits "October", rlits "November",
        rlits "December", rlits "Jan", rlits "Feb", rlits "Mar",
        rlits "Apr", rlits "May", rlits "Jun", rlits "Jul", rlits "Aug",
        rlits "Sep", rlits "Oct", rlits "Nov", rlits "Dec"]

/-- The date/amount/percentage highlighting rules of
`enhanceContentStructure` (lines 540–558), in source order. -/
def enhanceRules : List (RE × List RTok) :=
  [ -- /\b(\d{1,2}\/\d{1,2}\/?\d{2,4}|\w+day|(months)\s+\d{1,2}(?:,?\s+\d{4})?|(months)\s+\d{4})\b/g → '**$1**'
    (rcat [.wb,
           .grp 1 (ralt
             [rcat [rrep 1 2 clsD, .lit '/', rrep 1 2 clsD, ropt (.lit '/'),
                    rrep 2 4 clsD],
              rcat [rplus clsW, rlits "day"],
              rcat [monthsRE, rplus clsS, rrep 1 2 clsD,
                    ropt (rcat [ropt (.lit ','), rplus clsS,
                                rrep 4 4 clsD])],
              rcat [monthsRE, rplus clsS, rrep 4 4 clsD]]),
           .wb],
     [.s "**", .g 1, .s "**"]),
    -- /\$[\d,]+(?:\.\d{2})?/g → '**$&**'
    (rcat [.lit '$', rplus (.cls false [⟨'0', '9'⟩, ⟨',', ','⟩]),
           ropt (rcat [.lit '.', rrep 2 2 clsD])],
     [.s "**", .m, .s "**"]),
    -- /\b\d+%/g → '**$&**'
    (rcat [.wb, rplus clsD, .lit '%'], [.s "**", .m, .s "**"]),
    -- /\*\*\*\*([^*]+)\*\*\*\*/g → '**$1**'
    (rcat [rlits "****", .grp 1 (rplus (nset ['*'])), rlits "****"],
     [.s "**", .g 1, .s "**"]),
    -- /\*\*([^*]*)\*\*(\d+)\*\*/g → '**$1$2**'
    (rcat [rlits "**", .grp 1 (rstar (nset ['*'])), rlits "**",
           .grp 2 (rplus clsD), rlits "**"],
     [.s "**", .g 1, .g 2, .s "**"]),
    -- /\b(months)\s+\*\*(\d{2,3})\*\*(\d+)\*\*/g → '**$1 $2$3**'
    (rcat [.wb, .grp 1 monthsRE, rplus clsS, rlits "**",
           .grp 2 (rrep 2 3 clsD), rlits "**", .grp 3 (rplus clsD),
           rlits "**"],
     [.s "**", .g 1, .s " ", .g 2, .g 3, .s "**"]),
    -- /\*\*\s*\*\*/g → ''
    (rcat [rlits "**", rstar clsS, rlits "**"], []) ]

/-- `AIService.enhanceContentStructure(text)`: the header-insertion stage
followed by the action-item reformatting and highlighting rewrites; the
`catch` branch (return the input unchanged) is unreachable in this total
model. -/
def enhanceContentStructure (text : Str) : Str :=
  let s1 := enhanceStructured text
  let s2 := jsReplace actionItemRE false actionItemRepl s1
  enhanceRules.foldl
    (fun s rule => jsReplace rule.1 false (fun caps m => substT rule.2 caps m) s)
    s2

/-! ### `AIService.enforceWordLimit` -/

-- /(?:action|decision|next|follow|deadline|owner|assigned|due)/i  (lines 665-671)
def isPriorityLine (l : Str) : Bool :=
  containsAnyCI l [str "action", str "decision", str "next", str "follow",
                   str "deadline", str "owner", str "assigned", str "due"]

/-- `text.split('\n').filter(line => line.trim())`. -/
def keptLines (text : Str) : List Str :=
  (splitNl text).filter (fun l => jsTrim l ≠ [])

def priorityLinesOf (text : Str) : List Str :=
  (keptLines text).filter isPriorityLine

def otherLinesOf (text : Str) : List Str :=
  (keptLines text).filter (fun l => !isPriorityLine l)

/-- One greedy accumulation loop of `enforceWordLimit` (lines 674–693):
append lines while the running word total stays within `maxW`, stopping at
the first line that would exceed it. -/
def greedyTake (maxW : Int) : List Str → Int → List Str × Int
  | [], wc => ([], wc)
  | l :: ls, wc =>
    let lw : Int := lineWordCount l
    if wc + lw ≤ maxW then
      let r := greedyTake maxW ls (wc + lw)
      (l :: r.1, r.2)
    else ([], wc)

/-- `AIService.enforceWordLimit(text, maxWords)`; the `catch` fallback
(raw word-slice) is unreachable in this total model. -/
def enforceWordLimit (text : Str) (maxWords : Int) : Str :=
  if (wordCount text : Int) ≤ maxWords then text
  else
    let r1 := greedyTake maxWords (priorityLinesOf text) 0
    let r2 := greedyTake maxWords (otherLinesOf text) r1.2
    joinNl (r1.1 ++ r2.1)

/-! ### `AIService.calculateQualityScore` -/

/-- The compression-ratio contribution (lines 719–726).  The JS ratio is
`summaryWords.length / transcriptWords.length` as a double; the bounds are
compared here as exact rationals via cross-multiplication, and a zero
transcript count follows the JS float semantics (`s/0 = Infinity` for
`s > 0` takes the `−10` branch, `0/0 = NaN` takes no branch). -/
def ratioDelta (s t : Nat) : Int :=
  if t = 0 then (if s = 0 then 0 else -10)
  else if 10 * s ≥ t ∧ 10 * s ≤ 3 * t then 15
  else if 20 * s ≥ t ∧ 2 * s ≤ t then 10
  else if 100 * s < 3 * t ∨ 10 * s > 7 * t then -10
  else 0

-- /(action items?|decisions?|discussed?|agreed?|follow[- ]up|next steps?)/i
-- (line 745; the optional suffixes are dropped: a substring test for the
-- mandatory prefix is equivalent)
def hasProfessionalTerms (l : Str) : Bool :=
  containsAnyCI l [str "action item", str "decision", str "discusse",
                   str "agree", str "follow-up", str "follow up",
                   str "next step"]

/-- `AIService.calculateQualityScore(summary, transcript)` (lines 710–761):
base 60, ratio delta, structure/content/language bonuses, then
`Math.min(100, Math.max(0, Math.round(score)))`; the `catch` branch
(return 75) is unreachable in this total model. -/
def calculateQualityScore (summary transcript : Str) : Int :=
  let summaryWords := wordCount summary
  let transcriptWords := wordCount transcript
  let score : Int := 60 + ratioDelta summaryWords transcriptWords
  let structureScore : Int :=
    (if containsSub summary (str "**") || containsSub summary (str "*")
     then 5 else 0) +
    (if containsSub summary (str "##") || containsSub summary (str "#")
     then 5 else 0) +
    (if containsSub summary (str "- ") then 5 else 0)
  let contentScore : Int :=
    -- /action|task|assign|deadline|due/i
    (if kwAction summary then 3 else 0) +
    -- /decision|decided|agreed|concluded/i
    (if kwDecision summary then 3 else 0) +
    -- /next|follow.?up|upcoming/i
    (if containsAnyCI summary [str "next", str "upcoming"] ||
        hasFollowUp summary then 2 else 0) +
    -- /\$[\d,]+|\d+%|\d{1,2}\/\d{1,2}/i
    (if hasDollarAmount summary || hasPercentNum summary ||
        hasSlashDate summary then 2 else 0)
  let languageScore : Int :=
    (if hasProfessionalTerms summary then 5 else 0) +
    (if hasOwnership summary then 3 else 0) +
    (if hasTimeRef summary then 2 else 0)
  min 100 (max 0 (score + structureScore + contentScore + languageScore))

/-! ### `AIService.validateContentQuality` -/

structure Validation where
  isValid : Bool
  issues : List Str
  suggestions : List Str
  score : Int
deriving DecidableEq, Repr

/-- `compressionRatio > 0.8` with JS float semantics at `t = 0`. -/
def ratioGT08 (s t : Nat) : Bool :=
  if t = 0 then s ≠ 0 else 10 * s > 8 * t

/-- `compressionRatio < 0.05` with JS float semantics at `t = 0`
(`Infinity < 0.05` and `NaN < 0.05` are both false). -/
def ratioLT005 (s t : Nat) : Bool :=
  if t = 0 then false else 20 * s < t

-- /action|task|assign|deadline|due|follow.?up|next step/i  (lines 603-604)
def validActionTest (l : Str) : Bool :=
  containsAnyCI l [str "action", str "task", str "assign", str "deadline",
                   str "due", str "next step"] || hasFollowUp l

-- /decision|decide|agreed|conclude|resolve/i  (lines 612-613)
def validDecisionTest (l : Str) : Bool :=
  containsAnyCI l [str "decision", str "decide", str "agreed",
                   str "conclude", str "resolve"]

/-- The `try` block of `AIService.validateContentQuality` (lines 581–633);
the mutated `validation` object is assembled as the ordered concatenation
of the pushes. -/
def validateContentQualityBody (summary transcript : Str) : Validation :=
  let summaryWords := wordCount summary
  let transcriptWords := wordCount transcript
  let tooShort := summaryWords < 20
  let tooLong := ratioGT08 summaryWords transcriptWords
  let tooBrief := ratioLT005 summaryWords transcriptWords
  let missActions := validActionTest transcript && !validActionTest summary
  let missDecisions :=
    validDecisionTest transcript && !validDecisionTest summary
  let hasFormatting := containsSub summary (str "**") ||
    containsSub summary (str "##") || containsSub summary (str "- ")
  let score := calculateQualityScore summary transcript
  { isValid := !tooShort && !(decide (score < 60)),
    issues :=
      (if tooShort then [str "Summary is too short (less than 20 words)"]
       else []) ++
      (if tooLong then [str "Summary is too long relative to original text"]
       else if tooBrief then
         [str "Summary may be too brief and missing important details"]
       else []) ++
      (if missActions then
         [str "Missing action items that appear to be in the original transcript"]
       else []) ++
      (if missDecisions then
         [str "Missing key decisions that appear to be in the original transcript"]
       else []) ++
      (if score < 60 then
         [str "Quality score is low (" ++ (toString score).data ++
            str "/100)"]
       else []),
    suggestions :=
      (if tooShort then [str "Expand the summary to include more key details"]
       else []) ++
      (if tooLong then [str "Condense the summary to focus on key points"]
       else if tooBrief then
         [str "Include more context and important details"]
       else []) ++
      (if missActions then
         [str "Include action items with clear ownership and deadlines"]
       else []) ++
      (if missDecisions then
         [str "Include important decisions and their rationale"]
       else []) ++
      (if !hasFormatting && 50 < summaryWords then
         [str "Consider adding formatting (headers, bullet points, emphasis) for better readability"]
       else []),
    score := score }

/-- The neutral default report of the `catch` branch (lines 636–641). -/
def validationFallback : Validation :=
  { isValid := true,
    issues := [str "Unable to validate content quality"],
    suggestions := [],
    score := 75 }

/-- The `try`/`catch` shape of `validateContentQuality`: an erroring body
is replaced by the neutral default. -/
def validateWithCatch (body : Except Unit Validation) : Validation :=
  match body with
  | .ok v => v
  | .error _ => validationFallback

/-- `AIService.validateContentQuality(summary, transcript)`; the body is
total in this model, so it is injected with `Except.ok`. -/
def validateContentQuality (summary transcript : Str) : Validation :=
  validateWithCatch (.ok (validateContentQualityBody summary transcript))

/-! ### Word-limit extraction in `generateSummary` (lines 106–107) -/

-- /(?:keep under|under|maximum|max|limit.*?to)\s*(\d+)\s*words?/i
def wordLimitRE : RE :=
  rcat [ralt [rlits "keep under", rlits "under", rlits "maximum",
              rlits "max", rcat [rlits "limit", rstarLazy .anyChar,
                                 rlits "to"]],
        rstar clsS, .grp 1 (rplus clsD), rstar clsS, rlits "word",
        ropt (.lit 's')]

def parseNatDigits (l : Str) : Nat :=
  l.foldl (fun n c => n * 10 + (c.toNat - '0'.toNat)) 0

/-- `wordLimitMatch ? parseInt(wordLimitMatch[1]) : 300`. -/
def extractedWordLimit (prompt : Str) : Nat :=
  match reFind true wordLimitRE prompt with
  | some caps => parseNatDigits (lookupCap caps 1)
  | none => 300

/-! ### Word-count lemmas -/

theorem wcAux_append_ws (c : Char) (hc : isWs c = true) :
    ∀ (a b : Str) (s : Bool), wcAux (a ++ c :: b) s = wcAux a s + wcAux b false
  | [], b, s => by simp [wcAux, hc]
  | d :: a, b, s => by
    by_cases hd : isWs d = true <;>
      simp [wcAux, hd, wcAux_append_ws c hc a b] <;> omega

theorem wordCount_joinNl : ∀ ls : List Str,
    wordCount (joinNl ls) = (ls.map wordCount).sum
  | [] => by simp [joinNl, wordCount, wcAux]
  | [l] => by simp [joinNl]
  | l :: l' :: ls => by
    have h := wordCount_joinNl (l' :: ls)
    simp only [joinNl, List.map_cons, List.sum_cons] at h ⊢
    unfold wordCount at h ⊢
    rw [wcAux_append_ws '\n' (by decide)]
    omega

theorem wcAux_dropWhile_ws : ∀ l : Str, wcAux (l.dropWhile isWs) false = wcAux l false
  | [] => rfl
  | c :: cs => by
    by_cases hc : isWs c = true <;>
      simp [List.dropWhile, hc, wcAux, wcAux_dropWhile_ws cs]

theorem wcAux_ws_run : ∀ (w : Str), (∀ c ∈ w, isWs c = true) → ∀ s, wcAux w s = 0
  | [], _, _ => rfl
  | c :: w, h, s => by
    have hc : isWs c = true := h c (by simp)
    simp [wcAux, hc, wcAux_ws_run w (fun d hd => h d (by simp [hd]))]

theorem wcAux_append_ws_run : ∀ (b w : Str), (∀ c ∈ w, isWs c = true) →
    ∀ s, wcAux (b ++ w) s = wcAux b s
  | [], w, h, s => by simpa using wcAux_ws_run w h s
  | c :: b, w, h, s => by
    by_cases hc : isWs c = true <;>
      simp [wcAux, hc, wcAux_append_ws_run b w h]

theorem wordCount_jsTrim (l : Str) : wordCount (jsTrim l) = wordCount l := by
  unfold jsTrim wordCount
  set a := l.dropWhile isWs with ha
  have hsplit : a.reverse.takeWhile isWs ++ a.reverse.dropWhile isWs = a.reverse :=
    List.takeWhile_append_dropWhile isWs a.reverse
  have ha2 : (a.reverse.dropWhile isWs).reverse ++ (a.reverse.takeWhile isWs).reverse = a := by
    rw [← List.reverse_append, hsplit, List.reverse_reverse]
  calc wcAux (a.reverse.dropWhile isWs).reverse false
      = wcAux ((a.reverse.dropWhile isWs).reverse ++
          (a.reverse.takeWhile isWs).reverse) false := by
        rw [wcAux_append_ws_run]
        intro c hc
        exact List.mem_takeWhile_imp (List.mem_reverse.mp hc)
    _ = wcAux a false := by rw [ha2]
    _ = wcAux l false := by rw [ha]; exact wcAux_dropWhile_ws l

theorem wcAux_pos : ∀ l : Str, (∃ c ∈ l, isWs c = false) → 0 < wcAux l false
  | [], h => by simp at h
  | c :: cs, h => by
    by_cases hc : isWs c = true
    · obtain ⟨d, hd, hdw⟩ := h
      rcases List.mem_cons.mp hd with rfl | hd'
      · rw [hc] at hdw; cases hdw
      · simpa [wcAux, hc] using wcAux_pos cs ⟨d, hd', hdw⟩
    · simp [wcAux, hc]

theorem head_dropWhile_not_ws : ∀ (l : Str), l.dropWhile isWs ≠ [] →
    ∃ c cs, l.dropWhile isWs = c :: cs ∧ isWs c = false
  | [], h => absurd rfl h
  | c :: l, h => by
    by_cases hc : isWs c = true
    · rw [List.dropWhile_cons_of_pos (by simp [hc])] at h ⊢
      exact head_dropWhile_not_ws l h
    · rw [List.dropWhile_cons_of_neg (by simp [hc])]
      exact ⟨c, l, rfl, by simpa using hc⟩

theorem wordCount_pos_of_trim_ne (l : Str) (h : jsTrim l ≠ []) :
    0 < wordCount l := by
  have hy : (l.dropWhile isWs).reverse.dropWhile isWs ≠ [] := by
    intro hcon
    apply h
    unfold jsTrim
    rw [hcon, List.reverse_nil]
  obtain ⟨c, cs, heq, hcw⟩ := head_dropWhile_not_ws (l.dropWhile isWs).reverse hy
  have hmem : c ∈ l := by
    have h1 : c ∈ (l.dropWhile isWs).reverse.dropWhile isWs := by
      rw [heq]; simp
    have h2 : c ∈ l.dropWhile isWs :=
      List.mem_reverse.mp (List.dropWhile_subset isWs h1)
    exact List.dropWhile_subset isWs h2
  exact wcAux_pos l ⟨c, hmem, hcw⟩

theorem lineWordCount_pos (l : Str) : 1 ≤ lineWordCount l := by
  simp only [lineWordCount]
  by_cases h : jsTrim l = []
  · simp [h]
  · rw [if_neg h, wordCount_jsTrim l]
    exact wordCount_pos_of_trim_ne l h

theorem lineWordCount_eq_wordCount (l : Str) (h : jsTrim l ≠ []) :
    lineWordCount l = wordCount l := by
  simp only [lineWordCount]
  rw [if_neg h]
  exact wordCount_jsTrim l

/-! ### Greedy-truncation lemmas -/

theorem greedyTake_front (m : Int) : ∀ (ls : List Str) (wc : Int),
    (greedyTake m ls wc).1 <+: ls
  | [], _ => by simp [greedyTake]
  | l :: ls, wc => by
    simp only [greedyTake]
    split_ifs with h
    · obtain ⟨t, ht⟩ := greedyTake_front m ls (wc + lineWordCount l)
      exact ⟨t, by rw [List.cons_append, ht]⟩
    · exact ⟨l :: ls, rfl⟩

theorem greedyTake_sum (m : Int) : ∀ (ls : List Str) (wc : Int),
    (greedyTake m ls wc).2 =
      wc + ((greedyTake m ls wc).1.map (fun l => (lineWordCount l : Int))).sum
  | [], wc => by simp [greedyTake]
  | l :: ls, wc => by
    simp only [greedyTake]
    split_ifs with h
    · have ih := greedyTake_sum m ls (wc + lineWordCount l)
      simp only [List.map_cons, List.sum_cons]
      omega
    · simp

theorem greedyTake_le (m : Int) : ∀ (ls : List Str) (wc : Int), wc ≤ m →
    (greedyTake m ls wc).2 ≤ m
  | [], wc, h => h
  | l :: ls, wc, h => by
    simp only [greedyTake]
    split_ifs with hle
    · exact greedyTake_le m ls (wc + lineWordCount l) hle
    · exact h

theorem cast_sum_lineWordCount : ∀ L : List Str,
    (((L.map lineWordCount).sum : Nat) : Int) =
      (L.map (fun l => (lineWordCount l : Int))).sum
  | [] => rfl
  | l :: L => by
    simp [List.map_cons, List.sum_cons, cast_sum_lineWordCount L]

theorem map_wordCount_of_kept (L : List Str) (hL : ∀ l ∈ L, jsTrim l ≠ []) :
    L.map wordCount = L.map lineWordCount := by
  induction L with
  | nil => rfl
  | cons l L ih =>
    simp only [List.map_cons]
    rw [lineWordCount_eq_wordCount l (hL l (by simp)),
      ih (fun x hx => hL x (by simp [hx]))]

theorem mem_keptLines_trim_ne (text : Str) (l : Str) (h : l ∈ keptLines text) :
    jsTrim l ≠ [] := by
  unfold keptLines at h
  have := List.mem_filter.mp h
  simpa using this.2

theorem mem_priorityLinesOf_kept (text : Str) (l : Str)
    (h : l ∈ priorityLinesOf text) : l ∈ keptLines text :=
  (List.mem_filter.mp h).1

theorem mem_otherLinesOf_kept (text : Str) (l : Str)
    (h : l ∈ otherLinesOf text) : l ∈ keptLines text :=
  (List.mem_filter.mp h).1

/-! ### Claim C2: word-limit bound -/

/-- C2: for every text and every `N > 0`, if the word count of the text is
at most `N` then `enforceWordLimit` returns the text unchanged, and
otherwise the word count of `enforceWordLimit(text, N)` is at most `N`. -/
theorem C2_enforceWordLimit_bound (text : Str) (N : Int) (hN : 0 < N) :
    ((wordCount text : Int) ≤ N → enforceWordLimit text N = text) ∧
    (N < (wordCount text : Int) →
      (wordCount (enforceWordLimit text N) : Int) ≤ N) := by
  constructor
  · intro hle
    simp only [enforceWordLimit]
    rw [if_pos hle]
  · intro hgt
    simp only [enforceWordLimit]
    rw [if_neg (by omega)]
    have hP := greedyTake_sum N (priorityLinesOf text) 0
    have hPle := greedyTake_le N (priorityLinesOf text) 0 (by omega)
    have hQ := greedyTake_sum N (otherLinesOf text)
      (greedyTake N (priorityLinesOf text) 0).2
    have hQle := greedyTake_le N (otherLinesOf text)
      (greedyTake N (priorityLinesOf text) 0).2 hPle
    set P := greedyTake N (priorityLinesOf text) 0 with hPdef
    set Q := greedyTake N (otherLinesOf text) P.2 with hQdef
    have hk : ∀ l ∈ P.1 ++ Q.1, jsTrim l ≠ [] := by
      intro l hl
      rcases List.mem_append.mp hl with hl | hl
      · exact mem_keptLines_trim_ne text l (mem_priorityLinesOf_kept text l
          ((greedyTake_front N (priorityLinesOf text) 0).subset hl))
      · exact mem_keptLines_trim_ne text l (mem_otherLinesOf_kept text l
          ((greedyTake_front N (otherLinesOf text) P.2).subset hl))
    rw [wordCount_joinNl, map_wordCount_of_kept _ hk, cast_sum_lineWordCount,
      List.map_append, List.sum_append]
    omega

/-- Witness for C2 at a concrete input. -/
theorem C2_enforceWordLimit_bound_witness :
    (0 : Int) < 1 ∧ (1 : Int) < (wordCount (str "a b c") : Int) ∧
      (wordCount (enforceWordLimit (str "a b c") 1) : Int) ≤ 1 :=
  ⟨by decide, by decide,
    (C2_enforceWordLimit_bound (str "a b c") 1 (by decide)).2 (by decide)⟩

/-! ### Claim C3: priority grouping -/

/-- C3: whenever the word count of the text exceeds `N`, the output of
`enforceWordLimit` consists of a block of priority lines followed by a
block of non-priority lines, each block a prefix of the corresponding
filtered line list (hence in original relative order), and each a sublist
of the input's kept lines. -/
theorem C3_enforceWordLimit_priority_grouping (text : Str) (N : Int)
    (hgt : N < (wordCount text : Int)) :
    ∃ p q : List Str,
      enforceWordLimit text N = joinNl (p ++ q) ∧
      (∀ l ∈ p, isPriorityLine l = true) ∧
      (∀ l ∈ q, isPriorityLine l = false) ∧
      p <+: priorityLinesOf text ∧
      q <+: otherLinesOf text ∧
      List.Sublist p (keptLines text) ∧
      List.Sublist q (keptLines text) := by
  refine ⟨(greedyTake N (priorityLinesOf text) 0).1,
    (greedyTake N (otherLinesOf text)
      (greedyTake N (priorityLinesOf text) 0).2).1, ?_, ?_, ?_, ?_, ?_, ?_, ?_⟩
  · simp only [enforceWordLimit]
    rw [if_neg (by omega)]
  · intro l hl
    have hmem : l ∈ priorityLinesOf text :=
      (greedyTake_front N (priorityLinesOf text) 0).subset hl
    exact (List.mem_filter.mp hmem).2
  · intro l hl
    have hmem : l ∈ otherLinesOf text :=
      (greedyTake_front N (otherLinesOf text) _).subset hl
    have := (List.mem_filter.mp hmem).2
    simpa using this
  · exact greedyTake_front N (priorityLinesOf text) 0
  · exact greedyTake_front N (otherLinesOf text) _
  · exact ((greedyTake_front N (priorityLinesOf text) 0).sublist).trans
      (List.filter_sublist _)
  · exact ((greedyTake_front N (otherLinesOf text) _).sublist).trans
      (List.filter_sublist _)

/-- Witness for C3 at a concrete input. -/
theorem C3_enforceWordLimit_priority_grouping_witness :
    (2 : Int) < (wordCount (str "take action now\nplain words here") : Int) ∧
    ∃ p q : List Str,
      enforceWordLimit (str "take action now\nplain words here") 2 =
          joinNl (p ++ q) ∧
        (∀ l ∈ p, isPriorityLine l = true) ∧
        (∀ l ∈ q, isPriorityLine l = false) ∧
        p <+: priorityLinesOf (str "take action now\nplain words here") ∧
        q <+: otherLinesOf (str "take action now\nplain words here") ∧
        List.Sublist p (keptLines (str "take action now\nplain words here")) ∧
        List.Sublist q (keptLines (str "take action now\nplain words here")) :=
  ⟨by decide,
    C3_enforceWordLimit_priority_grouping
      (str "take action now\nplain words here") 2 (by decide)⟩

/-! ### Claim C4: non-positive word limits -/

/-- C4 counterexample: `enforceWordLimit` with `maxWords = 0` does not
behave as with the default 300 — on `"a b"` it yields the empty string
rather than the unchanged text. -/
theorem C4_counterexample_nonpositive_not_default :
    enforceWordLimit (str "a b") 0 ≠ enforceWordLimit (str "a b") 300 := by
  decide

theorem greedyTake_nonpos (m : Int) (hm : m ≤ 0) (ls : List Str) :
    greedyTake m ls 0 = ([], 0) := by
  cases ls with
  | nil => rfl
  | cons l ls =>
    simp only [greedyTake]
    rw [if_neg]
    have := lineWordCount_pos l
    omega

/-- C4 amended: `enforceWordLimit` has no non-positive-limit guard — for a
text with at least one word and `maxWords ≤ 0` it returns the empty
string; and the word limit parsed from a prompt is used as-is, so
`"keep under 0 words"` yields 0, not 300 (300 arises only from the JS
default parameter or from a prompt with no limit pattern). -/
theorem C4_amended_nonpositive_behaviour :
    (∀ (text : Str) (m : Int), m ≤ 0 → 0 < wordCount text →
      enforceWordLimit text m = []) ∧
    extractedWordLimit (str "keep under 0 words") = 0 := by
  constructor
  · intro text m hm hw
    simp only [enforceWordLimit]
    rw [if_neg (by omega)]
    rw [greedyTake_nonpos m hm (priorityLinesOf text)]
    simp only []
    rw [greedyTake_nonpos m hm (otherLinesOf text)]
    rfl
  · decide

/-- Witness for C4's amended claim at a concrete input. -/
theorem C4_amended_nonpositive_behaviour_witness :
    enforceWordLimit (str "a b") 0 = [] :=
  C4_amended_nonpositive_behaviour.1 (str "a b") 0 (by decide) (by decide)

/-! ### Claims C5 and C10: score bounds -/

theorem ratioDelta_bounds (s t : Nat) :
    -10 ≤ ratioDelta s t ∧ ratioDelta s t ≤ 15 := by
  unfold ratioDelta
  split_ifs <;> omega

set_option maxHeartbeats 4000000 in
theorem calculateQualityScore_range (summary transcript : Str) :
    50 ≤ calculateQualityScore summary transcript ∧
      calculateQualityScore summary transcript ≤ 100 := by
  have hr := ratioDelta_bounds (wordCount summary) (wordCount transcript)
  simp only [calculateQualityScore]
  split_ifs <;> omega

/-- C5: for every pair of inputs (the empty string included), the score of
the quality report is an integer in `[0, 100]`. -/
theorem C5_validate_score_bounds (summary transcript : Str) :
    0 ≤ (validateContentQuality summary transcript).score ∧
      (validateContentQuality summary transcript).score ≤ 100 := by
  have h : (validateContentQuality summary transcript).score =
      calculateQualityScore summary transcript := rfl
  have := calculateQualityScore_range summary transcript
  omega

/-- C10 (implicit claim): the non-fallback score is never below 50 — the
only deduction is the single −10 against the base 60 — so together with
the upper clamp every returned score lies in `[50, 100]`; the error
fallback's 75 also lies in that interval. -/
theorem C10_score_tight_lower_bound (summary transcript : Str) :
    50 ≤ calculateQualityScore summary transcript ∧
    calculateQualityScore summary transcript ≤ 100 ∧
    50 ≤ (validateContentQuality summary transcript).score ∧
    50 ≤ validationFallback.score ∧ validationFallback.score ≤ 100 := by
  have h : (validateContentQuality summary transcript).score =
      calculateQualityScore summary transcript := rfl
  have := calculateQualityScore_range summary transcript
  refine ⟨by omega, by omega, by omega, by decide, by decide⟩

/-! ### Claims C7 and C8: the quality validator -/

def c7Summary : Str := str "hello world"

def c7Transcript : Str :=
  str "x x x x x x x x x x x x x x x x x x x x x x x x x x x x x x x x x x x x x x x x x x x x x x x x x x x x x x x x x x x x x x x x x x x"

set_option maxRecDepth 1000000 in
set_option maxHeartbeats 4000000 in
/-- C7 counterexample: at this input the score condition is violated
(50 < 60), the corresponding issue is appended, but no corresponding
suggestion is — the suggestions are exactly the word-count and compression
ones. -/
theorem C7_counterexample_no_low_score_suggestion :
    validateContentQuality c7Summary c7Transcript =
      { isValid := false,
        issues := [str "Summary is too short (less than 20 words)",
                   str "Summary may be too brief and missing important details",
                   str "Quality score is low (50/100)"],
        suggestions := [str "Expand the summary to include more key details",
                        str "Include more context and important details"],
        score := 50 } := by decide

/-- C7 amended: `isValid` holds iff `score ≥ 60` and the summary has at
least 20 words; the short-summary violation appends both its issue and its
suggestion; the low-score violation appends only its issue — every
suggestion comes from the fixed six non-score-related strings. -/
theorem C7_amended_isValid_and_messages (summary transcript : Str) :
    ((validateContentQuality summary transcript).isValid = true ↔
      60 ≤ (validateContentQuality summary transcript).score ∧
        20 ≤ wordCount summary) ∧
    (wordCount summary < 20 →
      str "Summary is too short (less than 20 words)" ∈
          (validateContentQuality summary transcript).issues ∧
        str "Expand the summary to include more key details" ∈
          (validateContentQuality summary transcript).suggestions) ∧
    ((validateContentQuality summary transcript).score < 60 →
      str "Quality score is low (" ++
          (toString (validateContentQuality summary transcript).score).data ++
          str "/100)" ∈ (validateContentQuality summary transcript).issues) ∧
    (∀ sug ∈ (validateContentQuality summary transcript).suggestions,
      sug ∈ [str "Expand the summary to include more key details",
             str "Condense the summary to focus on key points",
             str "Include more context and important details",
             str "Include action items with clear ownership and deadlines",
             str "Include important decisions and their rationale",
             str "Consider adding formatting (headers, bullet points, emphasis) for better readability"]) := by
  simp only [validateContentQuality, validateWithCatch,
    validateContentQualityBody]
  refine ⟨?_, ?_, ?_, ?_⟩
  · simp only [Bool.and_eq_true, Bool.not_eq_true', decide_eq_false_iff_not,
      not_lt]
    constructor
    · rintro ⟨h1, h2⟩; exact ⟨h2, h1⟩
    · rintro ⟨h1, h2⟩; exact ⟨h2, h1⟩
  · intro h
    constructor
    · simp [h]
    · simp [h]
  · intro h
    simp [h]
  · intro sug hsug
    simp only [List.mem_append] at hsug
    rcases hsug with ((((h | h) | h) | h) | h) <;>
      · revert h
        split_ifs <;> intro h <;> simp at h <;> simp [h]

set_option maxRecDepth 1000000 in
set_option maxHeartbeats 4000000 in
/-- Witness for C7's amended claim at a concrete input. -/
theorem C7_amended_isValid_and_messages_witness :
    (str "Summary is too short (less than 20 words)" ∈
        (validateContentQuality c7Summary c7Transcript).issues ∧
      str "Expand the summary to include more key details" ∈
        (validateContentQuality c7Summary c7Transcript).suggestions) ∧
    str "Quality score is low (" ++
        (toString (validateContentQuality c7Summary c7Transcript).score).data ++
        str "/100)" ∈ (validateContentQuality c7Summary c7Transcript).issues :=
  ⟨(C7_amended_isValid_and_messages c7Summary c7Transcript).2.1 (by decide),
   (C7_amended_isValid_and_messages c7Summary c7Transcript).2.2.1 (by decide)⟩

/-- C8: the `catch` handler returns exactly the neutral default report
`{score: 75, isValid: true, issues: ['Unable to validate content quality'],
suggestions: []}`, and the validator routes every input through that
handler; the body is total in this embedding, so validation itself never
raises. -/
theorem C8_validate_never_raises :
    validateWithCatch (Except.error ()) =
      { isValid := true,
        issues := [str "Unable to validate content quality"],
        suggestions := [],
        score := 75 } ∧
    ∀ summary transcript : Str,
      validateContentQuality summary transcript =
        validateWithCatch
          (Except.ok (validateContentQualityBody summary transcript)) :=
  ⟨rfl, fun _ _ => rfl⟩

/-! ### Claim C1: normalization idempotence -/

set_option maxRecDepth 1000000 in
set_option maxHeartbeats 16000000 in
/-- C1 counterexample: `cleanFormatting` is not idempotent.  On three
five-letter line fragments the single-pass fragment-reattachment rule
`/\b([A-Za-z]+)\n\s*([a-z]{1,8})\b/g` joins one pair per call, so a second
application still changes the text. -/
theorem C1_counterexample_not_idempotent :
    cleanFormatting (cleanFormatting (str "abcde\nfghij\nklmno")) ≠
      cleanFormatting (str "abcde\nfghij\nklmno") := by decide

set_option maxRecDepth 1000000 in
set_option maxHeartbeats 16000000 in
/-- C1 amended: idempotence fails in general (see the counterexample), but
holds on the spec's sampled corrupted scenario inputs — the split header
`"Decision\ns"` and the split date `"2024 (08-15)"` — whose normal forms
are fixed points of the normalizer. -/
theorem C1_amended_idempotent_on_scenario_inputs :
    (cleanFormatting (cleanFormatting (str "Decision\ns")) =
        cleanFormatting (str "Decision\ns") ∧
      cleanFormatting (str "Decision\ns") = str "Decisions") ∧
    (cleanFormatting (cleanFormatting (str "2024 (08-15)")) =
        cleanFormatting (str "2024 (08-15)") ∧
      cleanFormatting (str "2024 (08-15)") = str "2024-08-15") := by
  exact ⟨⟨by decide, by decide⟩, ⟨by decide, by decide⟩⟩

/-! ### Claim C9 (supporting instance)

The universal claim — every raw text containing `"2024 (08-15)"` has that
substring repaired — is not settled here; this is the spec's concrete
scenario. -/

set_option maxRecDepth 1000000 in
set_option maxHeartbeats 16000000 in
/-- The §8 scenario instance of C9: a raw text containing `"2024 (08-15)"`
normalizes with that substring rewritten to `"2024-08-15"`. -/
theorem cleanFormatting_repairs_scenario_date :
    containsSub (cleanFormatting (str "note the date 2024 (08-15) here"))
      (str "2024-08-15") = true := by decide

/-! ### Claim C6: section-header insertion -/

/-- A 314-character, `#`-free text whose lines alternate between the
action-keyword set and the next-step-keyword set. -/
def c6Input : Str := str
  "the action overview for the meeting covers the whole conversation and records everything the group went over in enough depth for readers\nthe next portion of the meeting went over general housekeeping and other small matters\nanother action item list was read aloud to make sure everyone heard the full set of chores"

set_option maxRecDepth 1000000 in
set_option maxHeartbeats 16000000 in
/-- C6 counterexample: the activation conditions hold (length > 200, no
existing `#`), yet the "## Action Items" header is inserted twice — the
actions/next branches fire on every section-type change, not only on the
first match. -/
theorem C6_counterexample_header_inserted_twice :
    200 < c6Input.length ∧ containsSub c6Input (str "#") = false ∧
      (splitNl (enhanceContentStructure c6Input)).count hdrActionItems = 2 := by
  exact ⟨by decide, by decide, by decide⟩

theorem structureLoop_count_ne_null :
    ∀ (lines acc cur : List Str) (st : SectionType), st ≠ SectionType.null →
      (∀ l ∈ lines, jsTrim l ≠ hdrKeyDecisions) →
      (structureLoop lines acc cur st).count hdrKeyDecisions =
        acc.count hdrKeyDecisions + cur.count hdrKeyDecisions
  | [], acc, cur, st, _, _ => by simp [structureLoop]
  | line :: rest, acc, cur, st, hst, hl => by
    have hline : jsTrim line ≠ hdrKeyDecisions := hl line (by simp)
    have hrest : ∀ l ∈ rest, jsTrim l ≠ hdrKeyDecisions :=
      fun l hlm => hl l (by simp [hlm])
    have hAI : hdrActionItems ≠ hdrKeyDecisions := by decide
    have hNS : hdrNextSteps ≠ hdrKeyDecisions := by decide
    simp only [structureLoop]
    split_ifs with h1 h2 h3
    · exact absurd h1.2 hst
    · rw [structureLoop_count_ne_null rest _ _ _ (by simp) hrest]
      simp [List.count_append, List.count_cons, hline, hAI]
    · rw [structureLoop_count_ne_null rest _ _ _ (by simp) hrest]
      simp [List.count_append, List.count_cons, hline, hNS]
    · rw [structureLoop_count_ne_null rest _ _ _ hst hrest]
      simp [List.count_append, List.count_cons, hline]

theorem structureLoop_count_null :
    ∀ (lines acc cur : List Str),
      (∀ l ∈ lines, jsTrim l ≠ hdrKeyDecisions) →
      (structureLoop lines acc cur SectionType.null).count hdrKeyDecisions ≤
        acc.count hdrKeyDecisions + cur.count hdrKeyDecisions + 1
  | [], acc, cur, _ => by simp [structureLoop]
  | line :: rest, acc, cur, hl => by
    have hline : jsTrim line ≠ hdrKeyDecisions := hl line (by simp)
    have hrest : ∀ l ∈ rest, jsTrim l ≠ hdrKeyDecisions :=
      fun l hlm => hl l (by simp [hlm])
    have hAI : hdrActionItems ≠ hdrKeyDecisions := by decide
    have hNS : hdrNextSteps ≠ hdrKeyDecisions := by decide
    simp only [structureLoop]
    split_ifs with h1 h2 h3
    · rw [structureLoop_count_ne_null rest _ _ _ (by simp) hrest]
      simp only [List.count_append, List.count_cons, hline, List.count_nil]
      simp [hline]
    · rw [structureLoop_count_ne_null rest _ _ _ (by simp) hrest]
      simp [List.count_append, List.count_cons, hline, hAI]
    · rw [structureLoop_count_ne_null rest _ _ _ (by simp) hrest]
      simp [List.count_append, List.count_cons, hline, hNS]
    · have ih := structureLoop_count_null rest acc (cur ++ [jsTrim line]) hrest
      simp only [List.count_append, List.count_cons, List.count_nil] at ih ⊢
      simp [hline] at ih
      omega

/-- C6 amended: the "Key Decisions" header is inserted at most once (only
while no section is open, so only when a decision line precedes every
action/next-step line), whereas the "Action Items"/"Next Steps" branches
can fire on every section-type change (see the counterexample); and no
header is inserted when the text is at most 200 characters long or already
contains `#`. -/
theorem C6_amended_header_discipline :
    (∀ lines : List Str, (∀ l ∈ lines, jsTrim l ≠ hdrKeyDecisions) →
      (structureLoop lines [] [] SectionType.null).count hdrKeyDecisions ≤ 1) ∧
    (∀ text : Str, text.length ≤ 200 ∨ containsSub text (str "#") = true →
      enhanceStructured text = text) := by
  constructor
  · intro lines hl
    simpa using structureLoop_count_null lines [] [] hl
  · intro text h
    have hneg : ¬(200 < text.length ∧ containsSub text (str "##") = false ∧
        containsSub text (str "#") = false) := by
      rintro ⟨hlen, -, hns⟩
      rcases h with h | h
      · omega
      · rw [h] at hns; cases hns
    unfold enhanceStructured
    rw [if_neg hneg]

/-- Witness for C6's amended claim at concrete inputs. -/
theorem C6_amended_header_discipline_witness :
    enhanceStructured (str "hi") = str "hi" ∧
      (structureLoop [str "take action"] [] []
            SectionType.null).count hdrKeyDecisions ≤ 1 :=
  ⟨C6_amended_header_discipline.2 (str "hi") (Or.inl (by decide)),
   C6_amended_header_discipline.1 [str "take action"] (by decide)⟩

end NotesSummarizer
